import Mathlib

/-!
Verification of the lead acquisition and ranking pipeline of the
recruiter-AI backend (`app/search`, `app/intelligence`, `app/enrichment`).

Each Python component is shallowly embedded as a Lean definition:

* `LeadRanker.rank`            — `app/search/lead_ranker.py`
* `LeadScorer.compute_score`   — `app/search/lead_scorer.py`
* `RoleExtractor.extract`      — `app/intelligence/role_extractor.py`
* `mockJobBoardFetch`          — `app/search/data_sources.py` (`MockJobBoard.fetch`)
* `gather`/`fetchWithTelemetry`— `app/search/search_orchestrator.py`
* `enrichConfidence`           — `app/enrichment/lead_enricher.py`

Machine floats are modelled as exact rationals (or reals where the source
uses `math.pow` with a fractional exponent); Python strings are modelled
through their character lists, with ASCII-faithful `lower`/`strip`.
Wall-clock latency values recorded in telemetry are not modelled (real
time); telemetry entries keep their status and payload fields.
-/

/-! ## String helpers (Python semantics over `List Char`) -/

/-- Python `\s` class: space, tab, newline, carriage return, form feed,
vertical tab (ASCII range, which is all the source ever feeds in). -/
def isPySpace (c : Char) : Bool :=
  c = ' ' || c = '\t' || c = '\n' || c = '\r' || c = Char.ofNat 11 || c = Char.ofNat 12

/-- Python `str.lower()` on ASCII text. -/
def pyLower (s : String) : String :=
  ⟨s.data.map Char.toLower⟩

/-- Python `str.strip()`: drop whitespace from both ends. -/
def pyStrip (s : String) : String :=
  ⟨((s.data.dropWhile isPySpace).reverse.dropWhile isPySpace).reverse⟩

/-- Auxiliary scan for `occursB`: does `pat` occur as a contiguous run in
`text` (Python's `pat in text` on strings)? -/
def occursAux (pat : List Char) : List Char → Bool
  | [] => pat.isEmpty
  | c :: rest => pat.isPrefixOf (c :: rest) || occursAux pat rest

/-- Python `pat in text` (substring containment). -/
def occursB (pat text : String) : Bool :=
  occursAux pat.data text.data

/-- Python `str.split()`: split on whitespace runs, dropping empty pieces. -/
def pySplit (s : String) : List String :=
  ((s.data.splitOnP isPySpace).filter (fun l => ¬ l.isEmpty)).map (fun l => ⟨l⟩)

/-! ## LeadRanker (`app/search/lead_ranker.py`)

`rank` only reads `company_name`, `role`, `location` and
`confidence_score` of a `NormalizedLead`; the struct below carries
exactly those fields. -/

structure ScoredLead where
  company_name : String
  role : String
  location : String
  confidence_score : ℚ
deriving DecidableEq, Repr

/-- `lead.company_name.lower().strip() if lead.company_name else ""`. -/
def companyKey (l : ScoredLead) : String :=
  if l.company_name = "" then "" else pyStrip (pyLower l.company_name)

/-- `lead.role.lower().strip() if ... lead.role else ""` (the `hasattr`
check is always true on the dataclass). -/
def roleKey (l : ScoredLead) : String :=
  if l.role = "" then "" else pyStrip (pyLower l.role)

/-- `lead.location.lower().strip() if ... lead.location else ""`. -/
def locationKey (l : ScoredLead) : String :=
  if l.location = "" then "" else pyStrip (pyLower l.location)

/-- The deduplication key `(company_key, role_key, location_key)`. -/
def dedupKey (l : ScoredLead) : String × String × String :=
  (companyKey l, roleKey l, locationKey l)

/-- Stable insertion into a descending-sorted list: the new element goes
after all elements with an equal or larger score. -/
def insertDesc (l : ScoredLead) : List ScoredLead → List ScoredLead
  | [] => [l]
  | x :: xs =>
    if x.confidence_score < l.confidence_score then l :: x :: xs
    else x :: insertDesc l xs

/-- Python `sorted(leads, key=lambda x: x.confidence_score, reverse=True)`:
a stable sort, descending by score (modelled by stable insertion sort,
which realises exactly that contract). -/
def sortByScoreDesc (leads : List ScoredLead) : List ScoredLead :=
  leads.foldr insertDesc []

/-- The deduplication loop of `LeadRanker.rank`: walk the sorted list,
skip leads with an empty company key, keep the first occurrence of each
`(company, role, location)` key. `seen` is the set of keys already kept. -/
def dedupGo (seen : List (String × String × String)) :
    List ScoredLead → List ScoredLead
  | [] => []
  | lead :: rest =>
    let key := dedupKey lead
    if companyKey lead = "" then dedupGo seen rest
    else if key ∈ seen then dedupGo seen rest
    else lead :: dedupGo (key :: seen) rest

/-- `LeadRanker.rank`: sort by confidence score descending, then
deduplicate by case-insensitive `(company, role, location)` keys,
dropping leads with an empty company key. -/
def rank (leads : List ScoredLead) : List ScoredLead :=
  if leads = [] then [] else dedupGo [] (sortByScoreDesc leads)

/-- Failing input for the density cap: four scored leads of the same
company with four distinct roles. -/
def densityCapInput : List ScoredLead :=
  [⟨"Acme", "backend dev", "Berlin", 90⟩,
   ⟨"Acme", "frontend dev", "Berlin", 80⟩,
   ⟨"Acme", "data dev", "Berlin", 70⟩,
   ⟨"Acme", "platform dev", "Berlin", 60⟩]

/-! ## Data sources and circuit breaker (`app/search/data_sources.py`)

`MockJobBoard` keeps one mutable field, `failure_count`; its `fetch`
either short-circuits (circuit open), or performs the upstream call
`job_api_manager.search_jobs` under `asyncio.wait_for`.  The outcome the
upstream call *would* produce is an explicit input of the model. -/

/-- A raw provider record: an untyped key/value bag. -/
abbrev RawRecord := List (String × String)

/-- Python `d[k] = v` on a dict modelled as an association list: replace
the value in place if the key exists, else append the pair. -/
def dictSet (d : RawRecord) (k v : String) : RawRecord :=
  if (List.lookup k d).isSome then
    d.map (fun p => if p.1 = k then (k, v) else p)
  else d ++ [(k, v)]

/-- `job["source_layer"] = "RealJobAPI"` applied to one record. -/
def tagRealJobAPI (job : RawRecord) : RawRecord :=
  dictSet job "source_layer" "RealJobAPI"

/-- What the upstream `asyncio.wait_for(job_api_manager.search_jobs ...)`
call would produce: a list of jobs, a timeout, or any other exception. -/
inductive UpstreamResult where
  | success (jobs : List RawRecord)
  | timeout
  | exception (msg : String)
deriving DecidableEq

/-- Observable outcome of one `MockJobBoard.fetch` call: the
`failure_count` after the call, the returned list, and whether the
upstream network call was actually made (instrumentation of the model —
`false` on the short-circuit path, `true` whenever the `try` block runs). -/
structure FetchCallResult where
  failure_count : ℕ
  result : List RawRecord
  network_called : Bool
deriving DecidableEq

/-- `MockJobBoard.fetch`, as a function of the circuit-breaker threshold,
the current `failure_count` and the upstream outcome:
* `failure_count >= threshold` — circuit open: return `[]`, no call;
* upstream succeeds — reset `failure_count` to 0, tag and return jobs;
* upstream times out — increment `failure_count`, return `[]`;
* upstream raises — increment `failure_count`, return `[]`. -/
def mockJobBoardFetch (threshold failure_count : ℕ)
    (upstream : UpstreamResult) : FetchCallResult :=
  if threshold ≤ failure_count then ⟨failure_count, [], false⟩
  else
    match upstream with
    | .success jobs => ⟨0, jobs.map tagRealJobAPI, true⟩
    | .timeout => ⟨failure_count + 1, [], true⟩
    | .exception _ => ⟨failure_count + 1, [], true⟩

/-- A sequence of `fetch` calls against one `MockJobBoard` instance,
threading `failure_count`; returns the final count and, per call, the
returned list and whether the network was hit. -/
def mockJobBoardRun (threshold : ℕ) (failure_count : ℕ) :
    List UpstreamResult → ℕ × List (List RawRecord × Bool)
  | [] => (failure_count, [])
  | u :: us =>
    let r := mockJobBoardFetch threshold failure_count u
    let rest := mockJobBoardRun threshold r.failure_count us
    (rest.1, (r.result, r.network_called) :: rest.2)

/-- `MockJobBoard.fetch` as seen by its caller: every branch of the
source `return`s a list (the `try` handlers catch `TimeoutError` and
`Exception`), so the call never carries an error to the caller.  The
`Except` type records what a raising path would have been. -/
def mockJobBoardCall (threshold failure_count : ℕ)
    (upstream : UpstreamResult) : Except String (List RawRecord) :=
  if threshold ≤ failure_count then .ok []
  else
    match upstream with
    | .success jobs => .ok (jobs.map tagRealJobAPI)
    | .timeout => .ok []
    | .exception _ => .ok []

/-! ## SearchOrchestrator (`app/search/search_orchestrator.py`) -/

/-- One provider in an orchestration run: its class name and the outcome
of its `fetch` call (`.error` when `fetch` raises to the caller). -/
structure ProviderRun where
  name : String
  outcome : Except String (List RawRecord)

/-- One entry of `provider_telemetry` (the wall-clock `latency_ms` field
is not modelled). -/
inductive TelemetryEntry where
  | success (leads_found : ℕ)
  | error (msg : String)
deriving DecidableEq

/-- `fetch_with_telemetry`: a successful fetch is recorded as a success
entry and yields its list; a raising fetch is recorded as an error entry
and yields the exception as a value (the `return e` of the handler,
matching `gather(..., return_exceptions=True)`). -/
def fetchWithTelemetry (p : ProviderRun) :
    (String × TelemetryEntry) × (List RawRecord ⊕ String) :=
  match p.outcome with
  | .ok leads => ((p.name, .success leads.length), .inl leads)
  | .error e => ((p.name, .error e), .inr e)

/-- The records one provider contributes to the raw pool: its list on
success, nothing when its fetch raised. -/
def providerContribution (p : ProviderRun) : List RawRecord :=
  match (fetchWithTelemetry p).2 with
  | .inl leads => leads
  | .inr _ => []

/-- The aggregation loop of `orchestrate`: `raw_leads.extend(res)` for
each list result, exceptions skipped. -/
def rawPool (ps : List ProviderRun) : List RawRecord :=
  (ps.map fetchWithTelemetry).flatMap fun r =>
    match r.2 with
    | .inl leads => leads
    | .inr _ => []

/-- All `provider_telemetry[name] = entry` writes of a run. -/
def providerTelemetry (ps : List ProviderRun) : List (String × TelemetryEntry) :=
  (ps.map fetchWithTelemetry).map (·.1)

/-- `summary.providers_failed` after the run. -/
def providersFailed (ps : List ProviderRun) : ℕ :=
  ps.countP fun p =>
    match p.outcome with
    | .ok _ => false
    | .error _ => true

/-- A concrete two-provider run used as a witness: the first provider's
fetch raises, the second succeeds with one record. -/
def witnessProviders : List ProviderRun :=
  [⟨"MockJobBoard", .error "boom"⟩, ⟨"MockStartupDB", .ok [[("company", "X")]]⟩]

/-- The three provider-enable flags of `settings.agent` read by
`SearchOrchestrator.__init__`. -/
structure AgentFlags where
  enable_arbeitnow : Bool
  enable_github_jobs : Bool
  enable_mock_sources : Bool
deriving DecidableEq

/-- The `self.sources` list built by `SearchOrchestrator.__init__`
(providers identified by class name). -/
def buildSources (c : AgentFlags) : List String :=
  (if c.enable_arbeitnow || c.enable_github_jobs then ["MockJobBoard"] else [])
    ++ (if c.enable_mock_sources then ["MockStartupDB", "MockCompanyAPI"] else [])

/-- `validate_active_providers`: raise `RuntimeError` when `self.sources`
is empty, otherwise keep the sources. -/
def validateActiveProviders (sources : List String) : Except String (List String) :=
  if sources.isEmpty then
    .error "CRITICAL: No search providers enabled! Check SEARCH_MODE and ENABLE_ flags."
  else .ok sources

/-- `SearchOrchestrator.__init__` up to its fail-fast provider check:
build the source list from the flags and validate it.  `.error` is the
constructor raising; `.ok` is a successfully constructed orchestrator
(its provider list). -/
def initSearchOrchestrator (c : AgentFlags) : Except String (List String) :=
  validateActiveProviders (buildSources c)

/-! ## RoleExtractor (`app/intelligence/role_extractor.py`) with the
static tables of `app/intelligence/market_context.py` -/

/-- `ROLE_SCARCITY` static table (its keys are the role vocabulary). -/
def ROLE_SCARCITY : List (String × ℚ) :=
  [("AI Engineer", 0.9), ("ML Engineer", 0.85), ("Data Scientist", 0.8),
   ("Backend Engineer", 0.6), ("Frontend Engineer", 0.5),
   ("DevOps Engineer", 0.7), ("Full Stack Engineer", 0.65),
   ("Android Developer", 0.6), ("iOS Developer", 0.65)]

namespace RoleExtractor

def SKILL_KEYWORDS : List String :=
  ["python", "ml", "ai", "sql", "aws", "react", "node", "java", "golang",
   "c++", "kubernetes", "docker", "gcp", "azure"]

/-- Step 1's vocabulary loop: longest key of `ROLE_SCARCITY` occurring in
the normalized text (ties broken by table order, first wins), together
with its length; default `("Software Engineer", 0)`. -/
def bestVocabRole (nt : String) : String × ℕ :=
  ROLE_SCARCITY.foldl
    (fun acc kv =>
      if occursB (pyLower kv.1) nt ∧ acc.2 < kv.1.length then (kv.1, kv.1.length)
      else acc)
    ("Software Engineer", 0)

/-- Step 1's override chain: high-priority substring rules applied on top
of the vocabulary match. -/
def extractRole (nt : String) : String :=
  let base := (bestVocabRole nt).1
  if occursB "ml " nt || occursB "machine learning" nt then "ML Engineer"
  else if occursB "ai " nt || occursB "artificial intelligence" nt then "AI Engineer"
  else if occursB "data scientist" nt || occursB "ds " nt then "Data Scientist"
  else if occursB "backend" nt then "Backend Engineer"
  else if occursB "frontend" nt then "Frontend Engineer"
  else if occursB "devops" nt then "DevOps Engineer"
  else if occursB "full stack" nt || occursB "fullstack" nt then "Full Stack Engineer"
  else if occursB "android" nt then "Android Developer"
  else if occursB "ios" nt then "iOS Developer"
  else base

/-- Numeric value of a run of ASCII digits. -/
def digitsVal (run : List Char) : ℕ :=
  run.foldl (fun n c => 10 * n + (c.toNat - 48)) 0

/-- The tail of the experience regex after the digit group:
`\s*\+?\s*(?:year|yrs|yoe|exp)` (deterministic here: no alternative of
the optional parts can start a keyword). -/
def expSuffixMatch (l : List Char) : Bool :=
  let l1 := l.dropWhile isPySpace
  let l2 := match l1 with
    | '+' :: rest => rest
    | _ => l1
  let l3 := l2.dropWhile isPySpace
  "year".data.isPrefixOf l3 || "yrs".data.isPrefixOf l3 ||
    "yoe".data.isPrefixOf l3 || "exp".data.isPrefixOf l3

/-- `re.search(r'(\d+)\s*\+?\s*(?:year|yrs|yoe|exp)', nt)`, group 1 as a
number.  The leftmost match of this pattern always starts at the start of
a maximal digit run (a shorter suffix of a run is followed by a digit,
which cannot begin the tail), so scanning maximal runs left to right is
exact.  `prevDigit` says whether the previous character was a digit. -/
def findExpAux (prevDigit : Bool) : List Char → Option ℕ
  | [] => none
  | c :: rest =>
    if c.isDigit && !prevDigit then
      let run := (c :: rest).takeWhile Char.isDigit
      let after := (c :: rest).dropWhile Char.isDigit
      if expSuffixMatch after then some (digitsVal run)
      else findExpAux true rest
    else findExpAux c.isDigit rest

/-- Step 3: experience extraction, defaulting to 0. -/
def extractExperience (nt : String) : ℕ :=
  (findExpAux false nt.data).getD 0

/-- Step 4: seniority from explicit keywords, then the experience
threshold adjustments, in source order. -/
def extractSeniority (nt : String) (experience : ℕ) : String :=
  let s0 :=
    if occursB "senior" nt || occursB "sr" nt then "Senior"
    else if occursB "lead" nt then "Lead"
    else if occursB "junior" nt || occursB "jr" nt || occursB "fresher" nt then "Junior"
    else if occursB "principal" nt then "Principal"
    else "Mid"
  let s1 := if 5 ≤ experience ∧ s0 = "Mid" then "Senior" else s0
  let s2 := if 8 ≤ experience ∧ s1 = "Senior" then "Lead" else s1
  if experience ≤ 2 ∧ s2 = "Mid" then "Junior" else s2

/-- The fixed city list of step 5, in source order. -/
def common_locations : List String :=
  ["bangalore", "mumbai", "pune", "delhi", "remote", "hyderabad", "chennai",
   "ncr", "gurgaon", "noida"]

/-- Python `str.title()` restricted to the single lowercase words of
`common_locations`: uppercase the first character. -/
def pyTitle (s : String) : String :=
  match s.data with
  | [] => ""
  | c :: cs => ⟨c.toUpper :: cs⟩

/-- Step 5: location from the city list (first hit wins), `"Remote"`
fallback, then the `"blr"`→Bangalore special case. -/
def extractLocation (nt : String) : String :=
  let loc :=
    match common_locations.find? (fun loc => occursB loc nt) with
    | some loc => pyTitle loc
    | none => "Remote"
  if occursB "blr" nt then "Bangalore" else loc

structure RoleProfile where
  role : String
  skills : List String
  experience : ℕ
  seniority : String
  location : String
deriving DecidableEq, Repr

/-- `RoleExtractor.extract`. -/
def extract (text : String) : RoleProfile :=
  let nt := pyLower text
  let role := extractRole nt
  let skills := SKILL_KEYWORDS.filter (fun sk => occursB sk nt)
  let experience := extractExperience nt
  let seniority := extractSeniority nt experience
  let location := extractLocation nt
  ⟨role, skills, experience, seniority, location⟩

end RoleExtractor

/-- The normalized text matches no key of the role vocabulary
(`known_role.lower() in normalized_text` fails for every key). -/
abbrev noVocabMatch (nt : String) : Prop :=
  ∀ kv ∈ ROLE_SCARCITY, occursB (pyLower kv.1) nt = false

/-- None of the high-priority substring rules of the override chain
fires on the normalized text. -/
abbrev noRoleOverride (nt : String) : Prop :=
  occursB "ml " nt = false ∧ occursB "machine learning" nt = false ∧
  occursB "ai " nt = false ∧ occursB "artificial intelligence" nt = false ∧
  occursB "data scientist" nt = false ∧ occursB "ds " nt = false ∧
  occursB "backend" nt = false ∧ occursB "frontend" nt = false ∧
  occursB "devops" nt = false ∧ occursB "full stack" nt = false ∧
  occursB "fullstack" nt = false ∧ occursB "android" nt = false ∧
  occursB "ios" nt = false

/-- The explicit-"Senior" condition of step 4 (`"senior"` or `"sr"`
occurs in the normalized text). -/
def hasSeniorKw (nt : String) : Bool :=
  occursB "senior" nt || occursB "sr" nt

/-- The explicit-"Lead" condition of step 4. -/
def hasLeadKw (nt : String) : Bool :=
  occursB "lead" nt

/-- The explicit-"Junior" condition of step 4 (`"junior"`, `"jr"` or
`"fresher"`). -/
def hasJuniorKw (nt : String) : Bool :=
  occursB "junior" nt || occursB "jr" nt || occursB "fresher" nt

/-- The explicit-"Principal" condition of step 4. -/
def hasPrincipalKw (nt : String) : Bool :=
  occursB "principal" nt

/-! ## LeadScorer (`app/search/lead_scorer.py`)

`compute_score` reads the signals dict and five lead attributes; scores
are real-valued because `math.pow(x, 1.5)` is a real power. -/

/-- The lead attributes read by `LeadScorer.compute_score`
(`hiring_urgency`, `skills`, `company_growth_stage`, `funding_stage`,
`salary_range` of a `NormalizedLead`). -/
structure ScoringLead where
  hiring_urgency : String
  skills : List String
  company_growth_stage : String
  funding_stage : String
  salary_range : Option String
deriving DecidableEq, Repr

namespace LeadScorer

/-- `signals.get(key, default)` on the signals dict (first-match lookup
on an association list; dict keys are unique). -/
noncomputable def sget : List (String × ℝ) → String → ℝ → ℝ
  | [], _, d => d
  | (k, v) :: rest, key, d => if key = k then v else sget rest key d

/-- `_apply_nonlinear_scale`: `math.pow(raw_val, 1.5)`. -/
noncomputable def applyNonlinearScale (raw_val : ℝ) : ℝ :=
  raw_val ^ (1.5 : ℝ)

/-- `urgency_score = {"High": 1.0, "Medium": 0.2, "Low": 0.0,
"Unknown": 0.0}`, looked up with default 0.0. -/
noncomputable def urgencyScore (u : String) : ℝ :=
  if u = "High" then 1 else if u = "Medium" then 0.2
  else if u = "Low" then 0 else if u = "Unknown" then 0 else 0

/-- `growth_score = {"High Growth": 1.0, "Stable": 0.2, "Early": 0.1,
"Unknown": 0.0}`, looked up with default 0.0. -/
noncomputable def growthScore (g : String) : ℝ :=
  if g = "High Growth" then 1 else if g = "Stable" then 0.2
  else if g = "Early" then 0.1 else if g = "Unknown" then 0 else 0

/-- `funding_score = {"Series A": 0.8, "Series B": 0.9, "Series C": 1.0,
"Seed": 0.2, "Unknown": 0.0}`, looked up with default 0.0. -/
noncomputable def fundingScore (f : String) : ℝ :=
  if f = "Series A" then 0.8 else if f = "Series B" then 0.9
  else if f = "Series C" then 1 else if f = "Seed" then 0.2
  else if f = "Unknown" then 0 else 0

/-- Python `round(x, 1)` (round-half-up model; the source's banker's
rounding differs only at exact midpoints, which no claim touches). -/
noncomputable def round1 (x : ℝ) : ℝ :=
  (round (x * 10) : ℤ) / 10

/-- `LeadScorer.compute_score`: floor 15, non-linearly scaled signal
contributions, categorical bonuses, and the final hard clamp
`max(40.0, min(100.0, round(score, 1)))`. -/
noncomputable def compute_score (lead : ScoringLead)
    (signals : List (String × ℝ)) : ℝ :=
  let score0 : ℝ := 15
  let pressure := sget signals "hiring_pressure" 0.5
  let scarcity := sget signals "role_scarcity" 0.5
  let difficulty := sget signals "market_difficulty" 0.5
  let score1 := score0 + applyNonlinearScale pressure * 15
  let score2 := score1 + applyNonlinearScale scarcity * 15
  let score3 := score2 + (1 - difficulty) * 5
  let urgency := if lead.hiring_urgency = "" then "Unknown" else lead.hiring_urgency
  let score4 := score3 + urgencyScore urgency * 30
  let score5 :=
    if ¬ lead.skills.isEmpty then
      score4 + ((min lead.skills.length 5 : ℕ) : ℝ) * 2
    else score4
  let growth := if lead.company_growth_stage = "" then "Unknown"
    else lead.company_growth_stage
  let score6 := score5 + growthScore growth * 20
  let funding := if lead.funding_stage = "" then "Unknown" else lead.funding_stage
  let score7 := score6 + fundingScore funding * 10
  let score8 :=
    match lead.salary_range with
    | some s => if s = "" then score7 else score7 + 5
    | none => score7
  max 40 (min 100 (round1 score8))

end LeadScorer

/-- A lead with every categorical bonus active. -/
def maxBonusLead : ScoringLead :=
  ⟨"High", ["python", "ml", "ai", "sql", "aws"], "High Growth", "Series C",
   some "120k"⟩

/-- A signals map with saturated pressure/scarcity and zero difficulty. -/
noncomputable def maxSignals : List (String × ℝ) :=
  [("hiring_pressure", 1), ("role_scarcity", 1), ("market_difficulty", 0)]

/-! ## LeadEnricher (`app/enrichment/lead_enricher.py`)

Step 1 of `LeadEnricher.enrich` (the score/confidence mapping, source
lines 79–127).  The lead dict is modelled by the fields this step reads
and writes; a missing dict key is `none`. -/

/-- The lead-dict fields read/written by the confidence mapping. -/
structure EnrichInput where
  confidence_score : Option ℚ
  score : Option ℚ
  confidence : Option ℚ
  evidence_count : Option ℤ
  source : Option String
deriving DecidableEq, Repr

/-- `source_reliability = {"company_api": 0.05, "startup_db": 0.03,
"job_board": 0.0, "unknown": -0.05}`, looked up with default 0.0. -/
def sourceReliability (s : String) : ℚ :=
  if s = "company_api" then 0.05 else if s = "startup_db" then 0.03
  else if s = "job_board" then 0 else if s = "unknown" then -0.05 else 0

/-- Python `round(x, 3)` (round-half-up model; banker's rounding differs
only at exact midpoints, which no claim touches). -/
def round3 (q : ℚ) : ℚ :=
  (round (q * 1000) : ℤ) / 1000

/-- The `confidence_value` computed when `confidence_score` is present:
`base = 0.4 + (score/100)*0.55`, evidence boost
`min(evidence_count*0.01, 0.05)` capped at 0.95 when `evidence_count>0`,
source-reliability adjustment, final clamp
`max(0.4, min(..., 0.95))`, rounded to 3 decimals. -/
def confidenceFromScore (score_value : ℚ) (evidence_count : ℤ)
    (source : String) : ℚ :=
  let normalized_score := score_value / 100
  let base0 := (0.4 : ℚ) + normalized_score * 0.55
  let base1 :=
    if 0 < evidence_count then
      min (base0 + min ((evidence_count : ℚ) * 0.01) 0.05) 0.95
    else base0
  let base2 := max 0.4 (min (base1 + sourceReliability source) 0.95)
  round3 base2

/-- Step 1 of `LeadEnricher.enrich`: set `score`/`confidence` (only when
not already present); without a `confidence_score` the defaults are
`score=50.0`, `confidence=0.5`. -/
def enrichConfidence (e : EnrichInput) : EnrichInput :=
  match e.confidence_score with
  | some score_value =>
    let confidence_value := confidenceFromScore score_value
      (e.evidence_count.getD 0) (e.source.getD "unknown")
    { e with
      score := if e.score = none then some score_value else e.score,
      confidence :=
        if e.confidence = none then some confidence_value else e.confidence }
  | none =>
    { e with
      score := if e.score = none then some 50 else e.score,
      confidence := if e.confidence = none then some 0.5 else e.confidence }

/-- Witness input for the enricher: a ranked lead dict as produced by the
pipeline (score present, confidence not yet set). -/
def enrichWitnessInput : EnrichInput :=
  ⟨some 72.5, none, none, some 3, some "job_board"⟩

/-! ## Theorems -/

/-- Every lead kept by `dedupGo` has a key outside `seen` and a non-empty
company key. -/
theorem dedupGo_mem (seen : List (String × String × String))
    (xs : List ScoredLead) (l : ScoredLead) (hl : l ∈ dedupGo seen xs) :
    dedupKey l ∉ seen ∧ companyKey l ≠ "" := by
  induction xs generalizing seen with
  | nil => simp [dedupGo] at hl
  | cons x rest ih =>
    by_cases hck : companyKey x = ""
    · rw [dedupGo, if_pos hck] at hl
      exact ih seen hl
    · by_cases hseen : dedupKey x ∈ seen
      · rw [dedupGo, if_neg hck, if_pos hseen] at hl
        exact ih seen hl
      · rw [dedupGo, if_neg hck, if_neg hseen] at hl
        rcases List.mem_cons.mp hl with h | h
        · subst h; exact ⟨hseen, hck⟩
        · have := ih (dedupKey x :: seen) h
          exact ⟨fun hmem => this.1 (List.mem_cons_of_mem _ hmem), this.2⟩

/-- The output of `dedupGo` has pairwise-distinct dedup keys. -/
theorem dedupGo_pairwise (seen : List (String × String × String))
    (xs : List ScoredLead) :
    (dedupGo seen xs).Pairwise (fun a b => dedupKey a ≠ dedupKey b) := by
  induction xs generalizing seen with
  | nil => simp [dedupGo]
  | cons x rest ih =>
    by_cases hck : companyKey x = ""
    · rw [dedupGo, if_pos hck]; exact ih seen
    · by_cases hseen : dedupKey x ∈ seen
      · rw [dedupGo, if_neg hck, if_pos hseen]; exact ih seen
      · rw [dedupGo, if_neg hck, if_neg hseen]
        refine List.pairwise_cons.mpr ⟨fun b hb hkey => ?_, ih _⟩
        have := (dedupGo_mem _ _ _ hb).1
        exact this (hkey ▸ List.mem_cons_self _ _)

/-- C4: every pair of leads in a ranked result has distinct
case-insensitive `(company, role, location)` keys, and no lead with an
empty company key survives ranking. -/
theorem rank_no_duplicates_no_empty_company (leads : List ScoredLead) :
    ((rank leads).Pairwise (fun a b => dedupKey a ≠ dedupKey b)) ∧
    (∀ l, l ∈ rank leads → companyKey l ≠ "") := by
  unfold rank
  by_cases h : leads = []
  · simp [h]
  · rw [if_neg h]
    exact ⟨dedupGo_pairwise [] _, fun l hl => (dedupGo_mem [] _ l hl).2⟩

/-- Witness for C4 at a concrete input. -/
theorem rank_no_duplicates_no_empty_company_witness :
    companyKey ⟨"Acme", "backend dev", "Berlin", 90⟩ ≠ "" :=
  (rank_no_duplicates_no_empty_company densityCapInput).2
    ⟨"Acme", "backend dev", "Berlin", 90⟩ (by decide)

/-- C2: `LeadRanker.rank` applies no per-company density cap — on four
leads of company "Acme" with four distinct roles, all four survive,
violating the claimed at-most-3-per-company bound. -/
theorem rank_density_cap_violated :
    (rank densityCapInput).countP (fun l => l.company_name = "Acme") = 4 ∧
    ¬ ((rank densityCapInput).countP (fun l => l.company_name = "Acme") ≤ 3) := by
  constructor <;> decide

/-- C5: the per-instance circuit breaker of `MockJobBoard.fetch`.  Once
`failure_count` has reached the threshold, every subsequent call returns
an empty result without a network call and leaves the counter unchanged;
below the threshold a successful call resets the counter to zero and a
timeout counts as one failure. -/
theorem circuit_breaker_contract (threshold st : ℕ) (us : List UpstreamResult) :
    (threshold ≤ st →
      (mockJobBoardRun threshold st us).1 = st ∧
      ∀ pr ∈ (mockJobBoardRun threshold st us).2, pr = ([], false)) ∧
    (st < threshold → ∀ jobs,
      (mockJobBoardFetch threshold st (.success jobs)).failure_count = 0) ∧
    (st < threshold →
      (mockJobBoardFetch threshold st .timeout).failure_count = st + 1) := by
  refine ⟨?_, ?_, ?_⟩
  · intro h
    induction us with
    | nil => exact ⟨rfl, by simp [mockJobBoardRun]⟩
    | cons u us ih =>
      have hf : mockJobBoardFetch threshold st u = ⟨st, [], false⟩ := by
        simp [mockJobBoardFetch, if_pos h]
      have hrun : mockJobBoardRun threshold st (u :: us)
          = ((mockJobBoardRun threshold st us).1,
             ([], false) :: (mockJobBoardRun threshold st us).2) := by
        simp [mockJobBoardRun, hf]
      refine ⟨by rw [hrun]; exact ih.1, ?_⟩
      intro pr hpr
      rw [hrun] at hpr
      rcases List.mem_cons.mp hpr with h1 | h1
      · exact h1
      · exact ih.2 pr h1
  · intro h jobs
    simp [mockJobBoardFetch, if_neg (not_le.mpr h)]
  · intro h
    simp [mockJobBoardFetch, if_neg (not_le.mpr h)]

/-- Witness for C5 at threshold 3: an open breaker (count 3) short-circuits
a success-then-timeout call sequence, and below threshold success resets
while timeout increments. -/
theorem circuit_breaker_contract_witness :
    ((3 : ℕ) ≤ 3 ∧
      ∀ pr ∈ (mockJobBoardRun 3 3
        [.success [[("company", "X")]], .timeout]).2, pr = ([], false)) ∧
    ((2 : ℕ) < 3 ∧
      (mockJobBoardFetch 3 2 (.success [[("company", "X")]])).failure_count = 0) ∧
    ((2 : ℕ) < 3 ∧ (mockJobBoardFetch 3 2 .timeout).failure_count = 2 + 1) :=
  ⟨⟨le_refl 3,
    ((circuit_breaker_contract 3 3 [.success [[("company", "X")]], .timeout]).1
      (le_refl 3)).2⟩,
   ⟨by decide,
    (circuit_breaker_contract 3 2 []).2.1 (by decide) [[("company", "X")]]⟩,
   ⟨by decide, (circuit_breaker_contract 3 2 []).2.2 (by decide)⟩⟩

/-- C10: `MockJobBoard.fetch` never raises to its caller — the telemetry
wrapper always records a success entry for it, and every failure path
(open circuit, timeout, upstream exception) returns the empty list; the
call result is exactly the `result` field of `mockJobBoardFetch`. -/
theorem mock_job_board_never_raises (nm : String) (threshold st : ℕ)
    (u : UpstreamResult) :
    (∃ n, (fetchWithTelemetry ⟨nm, mockJobBoardCall threshold st u⟩).1.2
      = TelemetryEntry.success n) ∧
    (threshold ≤ st → mockJobBoardCall threshold st u = .ok []) ∧
    (u = .timeout → mockJobBoardCall threshold st u = .ok []) ∧
    (∀ e, u = .exception e → mockJobBoardCall threshold st u = .ok []) ∧
    mockJobBoardCall threshold st u = .ok (mockJobBoardFetch threshold st u).result := by
  have key : mockJobBoardCall threshold st u
      = .ok (mockJobBoardFetch threshold st u).result := by
    unfold mockJobBoardCall mockJobBoardFetch
    by_cases h : threshold ≤ st
    · rw [if_pos h, if_pos h]
    · rw [if_neg h, if_neg h]; cases u <;> rfl
  refine ⟨⟨(mockJobBoardFetch threshold st u).result.length, by rw [key]; rfl⟩,
    ?_, ?_, ?_, key⟩
  · intro h
    rw [key]
    simp [mockJobBoardFetch, if_pos h]
  · intro h
    subst h
    rw [key]
    by_cases h2 : threshold ≤ st <;> simp [mockJobBoardFetch, h2]
  · intro e he
    subst he
    rw [key]
    by_cases h2 : threshold ≤ st <;> simp [mockJobBoardFetch, h2]

/-- Witness for C10: an upstream exception below threshold still comes
back as an empty successful list. -/
theorem mock_job_board_never_raises_witness :
    mockJobBoardCall 3 0 (.exception "boom") = .ok [] ∧
    (∃ n, (fetchWithTelemetry
      ⟨"MockJobBoard", mockJobBoardCall 3 0 (.exception "boom")⟩).1.2
        = TelemetryEntry.success n) :=
  ⟨(mock_job_board_never_raises "MockJobBoard" 3 0 (.exception "boom")).2.2.2.1
      "boom" rfl,
   (mock_job_board_never_raises "MockJobBoard" 3 0 (.exception "boom")).1⟩

/-- The raw pool of a run is the concatenation of per-provider
contributions. -/
theorem rawPool_eq_flatMap (ps : List ProviderRun) :
    rawPool ps = ps.flatMap providerContribution := by
  unfold rawPool providerContribution
  induction ps with
  | nil => rfl
  | cons q qs ih => simp only [List.map_cons, List.flatMap_cons, ih]

/-- C1: a provider whose fetch raises contributes zero records to the raw
pool, its error is recorded in the provider telemetry, and the raw pool
of the (always-completing) run is exactly the concatenation of the
per-provider contributions. -/
theorem failed_provider_isolated (ps : List ProviderRun) (p : ProviderRun)
    (e : String) (hp : p ∈ ps) (he : p.outcome = .error e) :
    providerContribution p = [] ∧
    (p.name, TelemetryEntry.error e) ∈ providerTelemetry ps ∧
    rawPool ps = ps.flatMap providerContribution := by
  have hft : fetchWithTelemetry p = ((p.name, .error e), .inr e) := by
    unfold fetchWithTelemetry
    rw [he]
  refine ⟨?_, ?_, rawPool_eq_flatMap ps⟩
  · unfold providerContribution
    rw [hft]
  · unfold providerTelemetry
    exact List.mem_map.mpr ⟨_, List.mem_map.mpr ⟨p, hp, rfl⟩, by rw [hft]⟩

/-- Witness for C1: a two-provider run where the first provider raises. -/
theorem failed_provider_isolated_witness :
    providerContribution ⟨"MockJobBoard", .error "boom"⟩ = [] ∧
    ("MockJobBoard", TelemetryEntry.error "boom") ∈ providerTelemetry witnessProviders ∧
    rawPool witnessProviders = witnessProviders.flatMap providerContribution :=
  failed_provider_isolated witnessProviders
    ⟨"MockJobBoard", .error "boom"⟩ "boom" (List.mem_cons_self _ _) rfl

/-- C6: constructing the orchestrator with zero enabled providers raises
(`.error`), and a successful construction never holds an empty provider
list. -/
theorem zero_providers_fail_fast (c : AgentFlags) :
    (buildSources c = [] →
      initSearchOrchestrator c = .error
        "CRITICAL: No search providers enabled! Check SEARCH_MODE and ENABLE_ flags.") ∧
    (∀ l, initSearchOrchestrator c = .ok l → l ≠ []) := by
  constructor
  · intro h
    unfold initSearchOrchestrator validateActiveProviders
    rw [h]
    rfl
  · intro l hl hnil
    subst hnil
    unfold initSearchOrchestrator validateActiveProviders at hl
    by_cases h : (buildSources c).isEmpty
    · rw [if_pos h] at hl
      exact Except.noConfusion hl
    · rw [if_neg h] at hl
      apply h
      rw [Except.ok.inj hl]
      rfl

/-- Witness for C6: with all three enable flags off the constructor
raises, and it raises exactly because the source list is empty. -/
theorem zero_providers_fail_fast_witness :
    initSearchOrchestrator ⟨false, false, false⟩ = .error
      "CRITICAL: No search providers enabled! Check SEARCH_MODE and ENABLE_ flags." :=
  (zero_providers_fail_fast ⟨false, false, false⟩).1 (by decide)

/-- C7 (amended): when the normalized query matches no role-vocabulary
keyword and no high-priority substring rule, the extracted role is the
default constant `"Software Engineer"`. -/
theorem role_fallback_default (text : String)
    (h1 : noVocabMatch (pyLower text)) (h2 : noRoleOverride (pyLower text)) :
    (RoleExtractor.extract text).role = "Software Engineer" := by
  obtain ⟨a1, a2, a3, a4, a5, a6, a7, a8, a9, a10, a11, a12, a13⟩ := h2
  have b1 := h1 ("AI Engineer", 0.9) (by simp [ROLE_SCARCITY])
  have b2 := h1 ("ML Engineer", 0.85) (by simp [ROLE_SCARCITY])
  have b3 := h1 ("Data Scientist", 0.8) (by simp [ROLE_SCARCITY])
  have b4 := h1 ("Backend Engineer", 0.6) (by simp [ROLE_SCARCITY])
  have b5 := h1 ("Frontend Engineer", 0.5) (by simp [ROLE_SCARCITY])
  have b6 := h1 ("DevOps Engineer", 0.7) (by simp [ROLE_SCARCITY])
  have b7 := h1 ("Full Stack Engineer", 0.65) (by simp [ROLE_SCARCITY])
  have b8 := h1 ("Android Developer", 0.6) (by simp [ROLE_SCARCITY])
  have b9 := h1 ("iOS Developer", 0.65) (by simp [ROLE_SCARCITY])
  show RoleExtractor.extractRole (pyLower text) = "Software Engineer"
  simp only [RoleExtractor.extractRole, a1, a2, a3, a4, a5, a6, a7, a8, a9,
    a10, a11, a12, a13, Bool.or_self, Bool.false_eq_true, if_false]
  simp only [RoleExtractor.bestVocabRole, ROLE_SCARCITY, List.foldl_cons,
    List.foldl_nil, b1, b2, b3, b4, b5, b6, b7, b8, b9, Bool.false_eq_true,
    false_and, if_false]

/-- Witness for C7 at a query matching nothing. -/
theorem role_fallback_default_witness :
    noVocabMatch (pyLower "qwerty asdf zxcv") ∧
    (RoleExtractor.extract "qwerty asdf zxcv").role = "Software Engineer" :=
  ⟨by decide, role_fallback_default "qwerty asdf zxcv" (by decide) (by decide)⟩

/-- C7 counterexample to the claim as stated: on `"qwerty asdf zxcv"`
neither a vocabulary keyword nor a substring rule matches, yet the
extracted role is the constant `"Software Engineer"`, not the first three
tokens of the query. -/
theorem role_fallback_not_first_three_tokens :
    noVocabMatch (pyLower "qwerty asdf zxcv") ∧
    noRoleOverride (pyLower "qwerty asdf zxcv") ∧
    String.intercalate " " ((pySplit (pyLower "qwerty asdf zxcv")).take 3)
      = "qwerty asdf zxcv" ∧
    (RoleExtractor.extract "qwerty asdf zxcv").role ≠
      String.intercalate " " ((pySplit (pyLower "qwerty asdf zxcv")).take 3) := by
  refine ⟨by decide, by decide, by decide, ?_⟩
  decide

/-- C8 (amended): an explicit seniority keyword determines the result in
keyword-priority order, except that an explicit `"senior"`/`"sr"` with
extracted experience ≥ 8 is upgraded to `"Lead"`; with no explicit
keyword the thresholds ≥8→Lead, ≥5→Senior, ≤2→Junior, else Mid apply. -/
theorem seniority_keyword_precedence (text : String) :
    (hasSeniorKw (pyLower text) = true →
      (RoleExtractor.extract text).seniority =
        if 8 ≤ RoleExtractor.extractExperience (pyLower text) then "Lead"
        else "Senior") ∧
    (hasSeniorKw (pyLower text) = false → hasLeadKw (pyLower text) = true →
      (RoleExtractor.extract text).seniority = "Lead") ∧
    (hasSeniorKw (pyLower text) = false → hasLeadKw (pyLower text) = false →
      hasJuniorKw (pyLower text) = true →
      (RoleExtractor.extract text).seniority = "Junior") ∧
    (hasSeniorKw (pyLower text) = false → hasLeadKw (pyLower text) = false →
      hasJuniorKw (pyLower text) = false → hasPrincipalKw (pyLower text) = true →
      (RoleExtractor.extract text).seniority = "Principal") ∧
    (hasSeniorKw (pyLower text) = false → hasLeadKw (pyLower text) = false →
      hasJuniorKw (pyLower text) = false → hasPrincipalKw (pyLower text) = false →
      (RoleExtractor.extract text).seniority =
        if 5 ≤ RoleExtractor.extractExperience (pyLower text) then
          (if 8 ≤ RoleExtractor.extractExperience (pyLower text) then "Lead"
           else "Senior")
        else if RoleExtractor.extractExperience (pyLower text) ≤ 2 then "Junior"
        else "Mid") := by
  have hsen : (RoleExtractor.extract text).seniority
      = RoleExtractor.extractSeniority (pyLower text)
          (RoleExtractor.extractExperience (pyLower text)) := rfl
  set nt := pyLower text
  set exp := RoleExtractor.extractExperience nt with hexp
  rw [hsen]
  refine ⟨?_, ?_, ?_, ?_, ?_⟩
  · intro hS
    simp only [hasSeniorKw] at hS
    by_cases h8 : 8 ≤ exp <;>
      simp [RoleExtractor.extractSeniority, hS, h8]
  · intro hS hL
    simp only [hasSeniorKw] at hS
    simp only [hasLeadKw] at hL
    simp [RoleExtractor.extractSeniority, hS, hL]
  · intro hS hL hJ
    simp only [hasSeniorKw] at hS
    simp only [hasLeadKw] at hL
    simp only [hasJuniorKw] at hJ
    simp [RoleExtractor.extractSeniority, hS, hL, hJ]
  · intro hS hL hJ hP
    simp only [hasSeniorKw] at hS
    simp only [hasLeadKw] at hL
    simp only [hasJuniorKw] at hJ
    simp only [hasPrincipalKw] at hP
    simp [RoleExtractor.extractSeniority, hS, hL, hJ, hP]
  · intro hS hL hJ hP
    simp only [hasSeniorKw] at hS
    simp only [hasLeadKw] at hL
    simp only [hasJuniorKw] at hJ
    simp only [hasPrincipalKw] at hP
    by_cases h5 : 5 ≤ exp
    · have h2 : ¬ exp ≤ 2 := by omega
      by_cases h8 : 8 ≤ exp <;>
        simp [RoleExtractor.extractSeniority, hS, hL, hJ, hP, h5, h8, h2]
    · by_cases h2 : exp ≤ 2 <;>
        simp [RoleExtractor.extractSeniority, hS, hL, hJ, hP, h5, h2]

/-- Witness for C8: `"senior engineer"` (no experience figure) yields
`"Senior"`. -/
theorem seniority_keyword_precedence_witness :
    hasSeniorKw (pyLower "senior engineer") = true ∧
    (RoleExtractor.extract "senior engineer").seniority = "Senior" := by
  have h := (seniority_keyword_precedence "senior engineer").1 (by decide)
  exact ⟨by decide, by rw [h]; decide⟩

/-- C8 counterexample to the claim as stated: `"senior dev 8 years"`
carries the explicit keyword `"senior"`, yet the extracted seniority is
`"Lead"` (the experience threshold overrides the keyword), not
`"Senior"`. -/
theorem senior_keyword_overridden_by_experience :
    hasSeniorKw (pyLower "senior dev 8 years") = true ∧
    RoleExtractor.extractExperience (pyLower "senior dev 8 years") = 8 ∧
    (RoleExtractor.extract "senior dev 8 years").seniority = "Lead" ∧
    (RoleExtractor.extract "senior dev 8 years").seniority ≠ "Senior" := by
  refine ⟨by decide, by decide, by decide, ?_⟩
  decide

/-- C3 (amended): `compute_score` always lands in the hard clamp range
`[40, 100]`. -/
theorem compute_score_bounds (lead : ScoringLead) (signals : List (String × ℝ)) :
    40 ≤ LeadScorer.compute_score lead signals ∧
    LeadScorer.compute_score lead signals ≤ 100 := by
  simp only [LeadScorer.compute_score]
  exact ⟨le_max_left _ _, max_le (by norm_num) (min_le_left _ _)⟩

/-- C3 counterexample to the claim as stated: with saturated signals and
every categorical bonus the raw score is 125, so the clamp returns the
ceiling 100 exactly — the score is not strictly below 100. -/
theorem compute_score_hits_ceiling :
    LeadScorer.compute_score maxBonusLead maxSignals = 100 ∧
    ¬ (LeadScorer.compute_score maxBonusLead maxSignals < 100) := by
  have h : LeadScorer.compute_score maxBonusLead maxSignals = 100 := by
    simp only [LeadScorer.compute_score, maxBonusLead, maxSignals]
    simp [LeadScorer.sget, LeadScorer.applyNonlinearScale,
      LeadScorer.urgencyScore, LeadScorer.growthScore, LeadScorer.fundingScore,
      LeadScorer.round1, Real.one_rpow]
    norm_num [round_eq]
  exact ⟨h, by rw [h]; exact lt_irrefl _⟩

/-- Rounding to 3 decimals preserves bounds that are themselves
multiples of 1/1000. -/
theorem round3_bounds (x : ℚ) (hlo : (0.4 : ℚ) ≤ x) (hhi : x ≤ 0.95) :
    (0.4 : ℚ) ≤ round3 x ∧ round3 x ≤ 0.95 := by
  unfold round3
  have h1 : (400 : ℤ) ≤ round (x * 1000) := by
    rw [round_eq]
    apply Int.le_floor.mpr
    push_cast
    linarith
  have h2 : round (x * 1000) ≤ 950 := by
    rw [round_eq]
    have h3 : ⌊x * 1000 + 1 / 2⌋ < 951 := Int.floor_lt.mpr (by push_cast; linarith)
    omega
  constructor
  · have h : ((400 : ℤ) : ℚ) ≤ ((round (x * 1000) : ℤ) : ℚ) := Int.cast_le.mpr h1
    push_cast at h
    linarith
  · have h : ((round (x * 1000) : ℤ) : ℚ) ≤ ((950 : ℤ) : ℚ) := Int.cast_le.mpr h2
    push_cast at h
    linarith

/-- The computed confidence value is clamped into `[0.4, 0.95]` for every
score, evidence count and source. -/
theorem confidenceFromScore_bounds (sv : ℚ) (ec : ℤ) (src : String) :
    (0.4 : ℚ) ≤ confidenceFromScore sv ec src ∧
    confidenceFromScore sv ec src ≤ 0.95 := by
  simp only [confidenceFromScore]
  apply round3_bounds
  · exact le_max_left _ _
  · exact max_le (by norm_num) (min_le_right _ _)

/-- C9: whenever the enricher sets the `confidence` field (it was not
already present in the lead dict), the resulting value lies in
`[0.4, 0.95]` — for every score, evidence volume and source. -/
theorem enrich_confidence_bounds (e : EnrichInput) (h : e.confidence = none) :
    ∃ c, (enrichConfidence e).confidence = some c ∧
      (0.4 : ℚ) ≤ c ∧ c ≤ 0.95 := by
  cases hcs : e.confidence_score with
  | none =>
    refine ⟨0.5, ?_, by norm_num, by norm_num⟩
    simp [enrichConfidence, hcs, h]
  | some sv =>
    refine ⟨confidenceFromScore sv (e.evidence_count.getD 0) (e.source.getD "unknown"),
      ?_, (confidenceFromScore_bounds _ _ _).1, (confidenceFromScore_bounds _ _ _).2⟩
    simp [enrichConfidence, hcs, h]

/-- Witness for C9 at a concrete ranked lead dict. -/
theorem enrich_confidence_bounds_witness :
    enrichWitnessInput.confidence = none ∧
    ∃ c, (enrichConfidence enrichWitnessInput).confidence = some c ∧
      (0.4 : ℚ) ≤ c ∧ c ≤ 0.95 :=
  ⟨rfl, enrich_confidence_bounds enrichWitnessInput rfl⟩
